import Mathlib

/-!
# Verification of the Hush demo HTTP client facade

Shallow embedding of `src/examples/clients/python_client.py`: the
`HushApiClient` class (configuration, header construction, request
building, response decoding, error translation) together with the
retry semantics of the `urllib3.util.retry.Retry` policy that
`__init__` installs on the session (`total=3`, `backoff_factor=1`,
`status_forcelist=[429, 500, 502, 503, 504]`, and — unchanged from the
default — `allowed_methods = {HEAD, GET, PUT, DELETE, OPTIONS, TRACE}`,
so status-based retries never apply to `POST` or `PATCH`).

The HTTP transport is modelled as a function from the built request and
an attempt index to an attempt outcome (a delivered response or a
network-level failure), so that theorems can quantify over arbitrary
server behaviours and count the attempts the transport observes.
Timing (`elapsed_ms`, `backoff_factor` sleeps, `timeout`) is kept as
data where the source stores it but its real-time behaviour is not
modelled.
-/

namespace HushDemo

/-- JSON values, the possible results of `response.json()`. -/
inductive JsonValue where
  | null : JsonValue
  | bool (b : Bool) : JsonValue
  | num (n : Int) : JsonValue
  | str (s : String) : JsonValue
  | arr (elems : List JsonValue) : JsonValue
  | obj (fields : List (String × JsonValue)) : JsonValue


/-- Python truthiness of a JSON value (`None`, `False`, `0`, `""`, `[]`,
`{}` are falsy), as used by the expression `data if data and method in
['POST', 'PUT', 'PATCH'] else None` in `_make_request`. -/
def JsonValue.truthy : JsonValue → Bool
  | .null => false
  | .bool b => b
  | .num n => n != 0
  | .str s => !s.isEmpty
  | .arr elems => !elems.isEmpty
  | .obj fields => !fields.isEmpty

/-- Truthiness of the optional `data` argument (default `None`). -/
def dataTruthy : Option JsonValue → Bool
  | none => false
  | some j => j.truthy

/-- The decoded body of a response: `response.json()` if the body parses
as JSON, otherwise `response.text` (lines 159–162 of the source). -/
inductive BodyData where
  | json (j : JsonValue) : BodyData
  | text (s : String) : BodyData


/-- A raw HTTP response as delivered by the transport.  `jsonBody` is
`some j` exactly when the body bytes parse as JSON (so `response.json()`
returns `j`), and `text` is the raw body text used otherwise. -/
structure HttpResponse where
  status : Nat
  jsonBody : Option JsonValue
  text : String
  headers : List (String × String)
  reason : String


/-- `response_data = response.json()` if parseable else `response.text`. -/
def decodeBody (r : HttpResponse) : BodyData :=
  match r.jsonBody with
  | some j => .json j
  | none => .text r.text

/-- The `ApiResponse` dataclass (`status_code`, `data`, `headers`;
`elapsed_ms` is real-time measurement and is not modelled). -/
structure ApiResponse where
  status_code : Nat
  data : BodyData
  headers : List (String × String)


/-- The `HushApiError` exception: message, optional status code
(default `None`), optional response data (default `None`). -/
structure HushApiError where
  message : String
  status_code : Option Nat
  response_data : Option BodyData


/-- The mutable state of a `HushApiClient` instance: `base_url`,
`timeout` and `token` as assigned in `__init__` / `set_auth_token`. -/
structure HushApiClient where
  base_url : String
  timeout : Nat
  token : Option String


/-- Python `s.rstrip('/')`: remove every trailing `'/'` character. -/
def rstripSlashes (s : String) : String :=
  String.mk ((s.data.reverse.dropWhile (fun c => c = '/')).reverse)

/-- `HushApiClient.__init__`: strips trailing slashes from `base_url`,
stores the timeout, leaves the token unset.  The retry configuration it
mounts on the session is modelled by `retryTotal` and
`retryStatusForcelist` below. -/
def HushApiClient.make (base_url : String) (timeout : Nat) : HushApiClient :=
  { base_url := rstripSlashes base_url
    timeout := timeout
    token := none }

/-- `set_auth_token`: stores the token; nothing else changes. -/
def HushApiClient.set_auth_token (c : HushApiClient) (token : String) : HushApiClient :=
  { c with token := some token }

/-- Python `dict` assignment/update for one key: replace the value in
place if the key is present, otherwise append the pair. -/
def setKey (hs : List (String × String)) (kv : String × String) : List (String × String) :=
  if hs.any (fun p => p.1 = kv.1) then
    hs.map (fun p => if p.1 = kv.1 then kv else p)
  else
    hs ++ [kv]

/-- Python `headers.update(additional_headers)`. -/
def updateHeaders (base extra : List (String × String)) : List (String × String) :=
  extra.foldl setKey base

/-- Look a header up by exact key (Python `headers[k]` presence). -/
def lookupHeader : List (String × String) → String → Option String
  | [], _ => none
  | p :: ps, k => if p.1 = k then some p.2 else lookupHeader ps k

/-- `_get_headers`: content type and user agent; `Authorization: Bearer
<token>` exactly when `self.token` is truthy (set and non-empty); then
`update` with the additional headers when they are truthy. -/
def HushApiClient.get_headers (c : HushApiClient)
    (additional_headers : Option (List (String × String))) : List (String × String) :=
  let headers := [("Content-Type", "application/json"),
                  ("User-Agent", "HushApiClient/1.0.0 (Python)")]
  let headers :=
    match c.token with
    | some t => if t.isEmpty then headers else setKey headers ("Authorization", "Bearer " ++ t)
    | none => headers
  match additional_headers with
  | some extra => if extra.isEmpty then headers else updateHeaders headers extra
  | none => headers

/-- The request handed to `session.request` in `_make_request`:
`url = f"{self.base_url}{endpoint}"`, the JSON body only for a truthy
payload with method `POST`/`PUT`/`PATCH`, headers from `_get_headers`. -/
structure HttpRequest where
  method : String
  url : String
  body : Option JsonValue
  headers : List (String × String)
  params : Option (List (String × String))


/-- Builds the request exactly as `_make_request` does before handing it
to the session (lines 142–156 of the source). -/
def buildRequest (c : HushApiClient) (method endpoint : String) (data : Option JsonValue)
    (headers : Option (List (String × String)))
    (params : Option (List (String × String))) : HttpRequest :=
  { method := method
    url := c.base_url ++ endpoint
    body := if dataTruthy data ∧ method ∈ ["POST", "PUT", "PATCH"] then data else none
    headers := c.get_headers headers
    params := params }

/-- Status codes eligible for automatic retry: `status_forcelist` of the
`Retry` policy configured in `__init__`. -/
def retryStatusForcelist : List Nat := [429, 500, 502, 503, 504]

/-- `Retry(total=3)`: the number of retries allowed after the first
attempt. -/
def retryTotal : Nat := 3

/-- urllib3's `Retry.DEFAULT_ALLOWED_METHODS`, in force because
`__init__` does not override `allowed_methods`: only these (idempotent)
methods are eligible for status-based retries.  `Retry.is_retry` checks
`_is_method_retryable(method)` before consulting `status_forcelist`,
so a `POST` or `PATCH` response is delivered as-is even with a
forcelisted status. -/
def retryAllowedMethods : List String :=
  ["HEAD", "GET", "PUT", "DELETE", "OPTIONS", "TRACE"]

/-- Outcome of one attempt by the transport: a delivered HTTP response,
or a connection-level failure (DNS, connection refused — a
`requests.exceptions.RequestException` with no response).  Connection
errors are raised before the request reaches the server, so urllib3
retries them for every method, unlike status-based retries. -/
inductive AttemptResult where
  | ok (r : HttpResponse) : AttemptResult
  | netErr (msg : String) : AttemptResult


/-- What `session.request` delivers to `_make_request` after the retry
policy runs: a response, or a raised `RequestException` (this covers
both exhausted network failures and the `RetryError` that `requests`
raises when status-based retries are exhausted). -/
inductive SessionResult where
  | resp (r : HttpResponse) : SessionResult
  | exn (msg : String) : SessionResult


/-- The urllib3 `Retry` loop as configured in `__init__`.  Arguments:
the request method, the transport (attempt index to outcome), the
current attempt index, and the remaining retry budget.  A response is
retried (`Retry.is_retry`) when its status is in the forcelist AND the
method is in the default allowed methods; a connection-level failure is
retried for any method.  Each retry consumes one unit of `total`; when
the budget is exhausted the next retriable outcome raises
(`MaxRetryError`, surfaced by `requests` as a `RequestException`).  A
non-retriable response is delivered as-is.  Returns the session result
and the number of attempts the transport observed. -/
def sessionLoop (method : String) (t : Nat → AttemptResult) :
    Nat → Nat → SessionResult × Nat
  | i, 0 =>
    match t i with
    | .ok r =>
      if r.status ∈ retryStatusForcelist ∧ method ∈ retryAllowedMethods then
        (.exn ("too many " ++ toString r.status ++ " error responses"), 1)
      else
        (.resp r, 1)
    | .netErr msg => (.exn msg, 1)
  | i, n + 1 =>
    match t i with
    | .ok r =>
      if r.status ∈ retryStatusForcelist ∧ method ∈ retryAllowedMethods then
        let rest := sessionLoop method t (i + 1) n
        (rest.1, rest.2 + 1)
      else
        (.resp r, 1)
    | .netErr _ =>
      let rest := sessionLoop method t (i + 1) n
      (rest.1, rest.2 + 1)

/-- One `session.request` call with the configured retry policy. -/
def sessionRequest (method : String) (t : Nat → AttemptResult) : SessionResult × Nat :=
  sessionLoop method t 0 retryTotal

/-- `response.ok` from `requests`: true iff `raise_for_status()` would
not raise, i.e. the status is outside 400–599. -/
def responseOk (s : Nat) : Bool :=
  decide (s < 400) || decide (600 ≤ s)

/-- `_make_request`: build the request, run it through the session,
decode the body, return the `ApiResponse` when `response.ok`, raise
`HushApiError(msg, status, body)` for an error status, and translate a
`RequestException` into a `HushApiError` with no status and no body. -/
def HushApiClient.make_request (c : HushApiClient) (method endpoint : String)
    (data : Option JsonValue) (headers : Option (List (String × String)))
    (params : Option (List (String × String)))
    (t : HttpRequest → Nat → AttemptResult) : Except HushApiError ApiResponse :=
  let req := buildRequest c method endpoint data headers params
  match (sessionRequest method (t req)).1 with
  | .resp r =>
    let response_data := decodeBody r
    if responseOk r.status then
      .ok { status_code := r.status, data := response_data, headers := r.headers }
    else
      .error { message := "HTTP " ++ toString r.status ++ ": " ++ r.reason
               status_code := some r.status
               response_data := some response_data }
  | .exn msg =>
    .error { message := "网络错误: " ++ msg, status_code := none, response_data := none }

/-- `health_check`: `GET /health`, returns `response.data`. -/
def HushApiClient.health_check (c : HushApiClient)
    (t : HttpRequest → Nat → AttemptResult) : Except HushApiError BodyData :=
  (c.make_request "GET" "/health" none none none t).map (fun r => r.data)

/-- `get_user_info`: `GET /user`, returns `response.data`. -/
def HushApiClient.get_user_info (c : HushApiClient)
    (t : HttpRequest → Nat → AttemptResult) : Except HushApiError BodyData :=
  (c.make_request "GET" "/user" none none none t).map (fun r => r.data)

/-- `get_users`: `GET /api/users`, returns `response.data`. -/
def HushApiClient.get_users (c : HushApiClient)
    (t : HttpRequest → Nat → AttemptResult) : Except HushApiError BodyData :=
  (c.make_request "GET" "/api/users" none none none t).map (fun r => r.data)

/-- `create_user`: `POST /api/users` with the payload, returns
`response.data`. -/
def HushApiClient.create_user (c : HushApiClient) (user_data : JsonValue)
    (t : HttpRequest → Nat → AttemptResult) : Except HushApiError BodyData :=
  (c.make_request "POST" "/api/users" (some user_data) none none t).map (fun r => r.data)

/-- `get_admin_dashboard`: `GET /admin/dashboard`, returns
`response.data`. -/
def HushApiClient.get_admin_dashboard (c : HushApiClient)
    (t : HttpRequest → Nat → AttemptResult) : Except HushApiError BodyData :=
  (c.make_request "GET" "/admin/dashboard" none none none t).map (fun r => r.data)

/-- The extra headers `cors_preflight_check` sends. -/
def corsHeaders (method : String) : List (String × String) :=
  [("Access-Control-Request-Method", method),
   ("Access-Control-Request-Headers", "Content-Type, Authorization")]

/-- `cors_preflight_check`: one `OPTIONS` request to the given endpoint
with the CORS request headers; returns the whole `ApiResponse` (not
`response.data`). -/
def HushApiClient.cors_preflight_check (c : HushApiClient) (endpoint : String)
    (method : String) (t : HttpRequest → Nat → AttemptResult) :
    Except HushApiError ApiResponse :=
  c.make_request "OPTIONS" endpoint none (some (corsHeaders method)) none t

/-- A client as built by the no-argument constructor call in the
examples: `HushApiClient()` with the documented defaults. -/
def demoClient : HushApiClient :=
  HushApiClient.make "http://localhost:8080" 30

/-- A `304 Not Modified` response: not 2xx, but `response.ok` holds. -/
def resp304 : HttpResponse :=
  { status := 304, jsonBody := none, text := "", headers := [], reason := "Not Modified" }

/-- The healthy response of the end-to-end example: `200` with the JSON
body `\x7b"status": "ok"\x7d`. -/
def respOk200 : HttpResponse :=
  { status := 200
    jsonBody := some (.obj [("status", .str "ok")])
    text := ""
    headers := [("content-type", "application/json")]
    reason := "OK" }

/-- A `401 Unauthorized` response with a JSON error body. -/
def resp401 : HttpResponse :=
  { status := 401
    jsonBody := some (.obj [("error", .str "unauthorized")])
    text := ""
    headers := []
    reason := "Unauthorized" }

/-- A `500 Internal Server Error` response (transient status). -/
def resp500 : HttpResponse :=
  { status := 500, jsonBody := none, text := "boom", headers := [], reason := "Internal Server Error" }

/-- A `502 Bad Gateway` response (transient status). -/
def resp502 : HttpResponse :=
  { status := 502, jsonBody := none, text := "bad gateway", headers := [], reason := "Bad Gateway" }

/-- A `200` CORS preflight response whose headers grant the origin. -/
def corsRespA : HttpResponse :=
  { status := 200
    jsonBody := some (.obj [])
    text := ""
    headers := [("Access-Control-Allow-Origin", "*")]
    reason := "OK" }

/-- A `200` CORS preflight response with the same decoded body as
`corsRespA` but no CORS headers. -/
def corsRespB : HttpResponse :=
  { status := 200
    jsonBody := some (.obj [])
    text := ""
    headers := []
    reason := "OK" }

/-! ## General lemmas about the retry loop and the request path -/

/-- If the first attempt delivers a response whose status is not in the
forcelist, the session returns it at once, after exactly one attempt,
whatever the method. -/
theorem sessionLoop_first_ok (method : String) (t : Nat → AttemptResult) (i n : Nat)
    (r : HttpResponse)
    (ht : t i = .ok r) (hfl : r.status ∉ retryStatusForcelist) :
    sessionLoop method t i n = (.resp r, 1) := by
  cases n <;> simp [sessionLoop, ht, hfl]

/-- If the method is not eligible for status-based retries, the first
delivered response comes back at once, after exactly one attempt,
whatever its status. -/
theorem sessionLoop_first_ok_method (method : String) (t : Nat → AttemptResult)
    (i n : Nat) (r : HttpResponse)
    (ht : t i = .ok r) (hm : method ∉ retryAllowedMethods) :
    sessionLoop method t i n = (.resp r, 1) := by
  cases n <;> simp [sessionLoop, ht, hm]

/-- If the method is retry-eligible and every attempt delivers the same
forcelisted status, the session exhausts the whole retry budget and
raises. -/
theorem sessionLoop_const_forcelist (method : String) (t : Nat → AttemptResult)
    (r : HttpResponse)
    (ht : ∀ i, t i = .ok r) (hfl : r.status ∈ retryStatusForcelist)
    (hm : method ∈ retryAllowedMethods) (n i : Nat) :
    sessionLoop method t i n
      = (.exn ("too many " ++ toString r.status ++ " error responses"), n + 1) := by
  induction n generalizing i with
  | zero => simp [sessionLoop, ht i, hfl, hm]
  | succ n ih => simp [sessionLoop, ht i, hfl, hm, ih (i + 1)]

/-- For a retry-eligible method, a response the session hands back never
has a forcelisted status: those are always retried, and on exhaustion
an exception is raised.  (For `POST`/`PATCH` no such guarantee holds:
the first response is delivered whatever its status.) -/
theorem sessionLoop_resp_not_forcelist (n : Nat) (method : String)
    (t : Nat → AttemptResult) (i : Nat)
    (r : HttpResponse) (h : (sessionLoop method t i n).1 = .resp r)
    (hm : method ∈ retryAllowedMethods) :
    r.status ∉ retryStatusForcelist := by
  induction n generalizing i with
  | zero =>
    rcases ha : t i with r' | msg
    · by_cases hfl : r'.status ∈ retryStatusForcelist
      · simp [sessionLoop, ha, hfl, hm] at h
      · simp [sessionLoop, ha, hfl] at h
        subst h; exact hfl
    · simp [sessionLoop, ha] at h
  | succ n ih =>
    rcases ha : t i with r' | msg
    · by_cases hfl : r'.status ∈ retryStatusForcelist
      · simp [sessionLoop, ha, hfl, hm] at h
        exact ih (i + 1) h
      · simp [sessionLoop, ha, hfl] at h
        subst h; exact hfl
    · simp [sessionLoop, ha] at h
      exact ih (i + 1) h

/-- `_make_request` when the first attempt yields a non-forcelisted
response: success envelope for an `ok` status, `HushApiError` with the
status and decoded body otherwise. -/
theorem make_request_first_ok (c : HushApiClient) (method endpoint : String)
    (data : Option JsonValue) (headers params : Option (List (String × String)))
    (t : HttpRequest → Nat → AttemptResult) (r : HttpResponse)
    (ht : t (buildRequest c method endpoint data headers params) 0 = .ok r)
    (hfl : r.status ∉ retryStatusForcelist) :
    c.make_request method endpoint data headers params t
      = if responseOk r.status then
          .ok { status_code := r.status, data := decodeBody r, headers := r.headers }
        else
          .error { message := "HTTP " ++ toString r.status ++ ": " ++ r.reason
                   status_code := some r.status
                   response_data := some (decodeBody r) } := by
  simp only [HushApiClient.make_request, sessionRequest,
    sessionLoop_first_ok _ _ _ _ _ ht hfl]

/-! ## Claim C1 -/

/-- C1, counterexample: a received `304 Not Modified` response is not
2xx, yet `_make_request` returns the decoded body instead of raising an
API error — the success test in the source is `response.ok`
(status outside 400–599), not membership in 2xx. -/
theorem non2xx_304_returns_ok :
    resp304.status = 304
    ∧ demoClient.make_request "GET" "/health" none none none (fun _ _ => .ok resp304)
        = .ok { status_code := 304, data := .text "", headers := [] }
    ∧ ∀ e, demoClient.make_request "GET" "/health" none none none (fun _ _ => .ok resp304)
        ≠ .error e := by
  refine ⟨rfl, rfl, fun e h => Except.noConfusion h⟩

/-- C1 (amended): for a response delivered on the first attempt whose
status is not in the retry forcelist, `_make_request` returns the
decoded body unchanged when the status is below 400 (`response.ok`,
which includes 3xx, not only 2xx), and raises a `HushApiError` carrying
the status code and the parsed body when the status is in 400–599;
typed methods such as `health_check` then return the decoded body on
success. -/
theorem make_request_status_dichotomy (c : HushApiClient) (method endpoint : String)
    (data : Option JsonValue) (headers params : Option (List (String × String)))
    (t : HttpRequest → Nat → AttemptResult) (r : HttpResponse)
    (ht : t (buildRequest c method endpoint data headers params) 0 = .ok r)
    (hfl : r.status ∉ retryStatusForcelist) :
    (r.status < 400 →
      c.make_request method endpoint data headers params t
        = .ok { status_code := r.status, data := decodeBody r, headers := r.headers })
    ∧ (400 ≤ r.status → r.status < 600 →
      c.make_request method endpoint data headers params t
        = .error { message := "HTTP " ++ toString r.status ++ ": " ++ r.reason
                   status_code := some r.status
                   response_data := some (decodeBody r) })
    ∧ (∀ t2 : HttpRequest → Nat → AttemptResult,
        t2 (buildRequest c "GET" "/health" none none none) 0 = .ok r → r.status < 400 →
        c.health_check t2 = .ok (decodeBody r)) := by
  refine ⟨fun h400 => ?_, fun hlo hhi => ?_, fun t2 ht2 h400 => ?_⟩
  · rw [make_request_first_ok c method endpoint data headers params t r ht hfl]
    have hok : responseOk r.status = true := by
      simp only [responseOk, Bool.or_eq_true, decide_eq_true_eq]; omega
    simp [hok]
  · rw [make_request_first_ok c method endpoint data headers params t r ht hfl]
    have hok : responseOk r.status = false := by
      simp only [responseOk, Bool.or_eq_false_iff, decide_eq_false_iff_not]; omega
    simp [hok]
  · unfold HushApiClient.health_check
    rw [make_request_first_ok c "GET" "/health" none none none t2 r ht2 hfl]
    have hok : responseOk r.status = true := by
      simp only [responseOk, Bool.or_eq_true, decide_eq_true_eq]; omega
    simp [hok, Except.map]

/-- Witness for `make_request_status_dichotomy` at the end-to-end
example: `GET /health` answered by `200` with body
`\x7b"status": "ok"\x7d`. -/
theorem make_request_status_dichotomy_witness :
    respOk200.status < 400
    ∧ demoClient.make_request "GET" "/health" none none none (fun _ _ => .ok respOk200)
        = .ok { status_code := 200
                data := .json (.obj [("status", .str "ok")])
                headers := [("content-type", "application/json")] }
    ∧ demoClient.health_check (fun _ _ => .ok respOk200)
        = .ok (.json (.obj [("status", .str "ok")])) := by
  refine ⟨by decide, ?_, ?_⟩
  · exact (make_request_status_dichotomy demoClient "GET" "/health" none none none
      (fun _ _ => .ok respOk200) respOk200 rfl (by decide)).1 (by decide)
  · exact (make_request_status_dichotomy demoClient "GET" "/health" none none none
      (fun _ _ => .ok respOk200) respOk200 rfl (by decide)).2.2
      (fun _ _ => .ok respOk200) rfl (by decide)

/-! ## Claim C4 -/

/-- C4: a response with status 401 (not a transient status, so never
retried) makes `_make_request` raise a `HushApiError` whose
`status_code` is 401 and whose `response_data` is the original body,
decoded as JSON if parseable and as raw text otherwise. -/
theorem unauthorized_401_error (c : HushApiClient) (method endpoint : String)
    (data : Option JsonValue) (headers params : Option (List (String × String)))
    (t : HttpRequest → Nat → AttemptResult) (r : HttpResponse)
    (hst : r.status = 401)
    (ht : t (buildRequest c method endpoint data headers params) 0 = .ok r) :
    c.make_request method endpoint data headers params t
      = .error { message := "HTTP 401: " ++ r.reason
                 status_code := some 401
                 response_data := some (decodeBody r) } := by
  have hfl : r.status ∉ retryStatusForcelist := by rw [hst]; decide
  rw [make_request_first_ok c method endpoint data headers params t r ht hfl, hst]
  have hok : responseOk 401 = false := by decide
  simp only [hok, Bool.false_eq_true, if_false]
  rfl

/-- Witness for `unauthorized_401_error`: `GET /api/users` answered by
`401` with a JSON error body. -/
theorem unauthorized_401_error_witness :
    resp401.status = 401
    ∧ demoClient.make_request "GET" "/api/users" none none none (fun _ _ => .ok resp401)
        = .error { message := "HTTP 401: Unauthorized"
                   status_code := some 401
                   response_data := some (.json (.obj [("error", .str "unauthorized")])) } :=
  ⟨rfl, unauthorized_401_error demoClient "GET" "/api/users" none none none
      (fun _ _ => .ok resp401) resp401 rfl rfl⟩

/-! ## Claim C2 -/

/-- C2, counterexample: with a transport that always answers `500` on a
`GET` (a retry-eligible method), the transport observes 4 attempts —
the initial attempt plus the `total=3` retries of the configured
policy — not `max_retries = 3` as the claim states; the exhaustion
error is then surfaced. -/
theorem retry_attempts_const500 :
    (sessionRequest "GET" (fun _ => .ok resp500)).2 = 4
    ∧ (sessionRequest "GET" (fun _ => .ok resp500)).2 ≠ retryTotal
    ∧ demoClient.make_request "GET" "/health" none none none (fun _ _ => .ok resp500)
        = .error { message := "网络错误: too many 500 error responses"
                   status_code := none
                   response_data := none } :=
  ⟨rfl, by decide, rfl⟩

/-- C2 (amended): for any transient status (429/500/502/503/504)
returned on every attempt, the behaviour depends on the method, because
urllib3's default `allowed_methods` gate applies before the
forcelist.  For a retry-eligible method (HEAD/GET/PUT/DELETE/OPTIONS/
TRACE — every typed method of the facade except `create_user`), the
request path retries up to the configured maximum (`total=3`) before
surfacing an error, the transport observes `retryTotal + 1 = 4`
attempts (the initial attempt plus the 3 retries), and the surfaced
error is the translated `RequestException`, which carries no status
code.  For `POST`/`PATCH` there is no status-based retry at all: the
transport observes exactly one attempt and the response surfaces as an
API error carrying its status and decoded body. -/
theorem retry_exhaustion_attempts (c : HushApiClient) (method endpoint : String)
    (data : Option JsonValue) (headers params : Option (List (String × String)))
    (t : HttpRequest → Nat → AttemptResult) (r : HttpResponse)
    (ht : ∀ i, t (buildRequest c method endpoint data headers params) i = .ok r)
    (hfl : r.status ∈ retryStatusForcelist) :
    (method ∈ retryAllowedMethods →
      (sessionRequest method (t (buildRequest c method endpoint data headers params))).2
          = retryTotal + 1
      ∧ c.make_request method endpoint data headers params t
          = .error { message := "网络错误: " ++ ("too many " ++ toString r.status
                       ++ " error responses")
                     status_code := none
                     response_data := none })
    ∧ (method ∉ retryAllowedMethods →
      (sessionRequest method (t (buildRequest c method endpoint data headers params))).2
          = 1
      ∧ c.make_request method endpoint data headers params t
          = .error { message := "HTTP " ++ toString r.status ++ ": " ++ r.reason
                     status_code := some r.status
                     response_data := some (decodeBody r) }) := by
  have hb : 400 ≤ r.status ∧ r.status < 600 := by
    revert hfl
    simp only [retryStatusForcelist, List.mem_cons, List.not_mem_nil, or_false]
    omega
  constructor
  · intro hm
    constructor
    · unfold sessionRequest
      rw [sessionLoop_const_forcelist method _ r ht hfl hm retryTotal 0]
    · simp only [HushApiClient.make_request, sessionRequest,
        sessionLoop_const_forcelist method _ r ht hfl hm retryTotal 0]
  · intro hm
    have hdel := sessionLoop_first_ok_method method
      (t (buildRequest c method endpoint data headers params)) 0 retryTotal r (ht 0) hm
    constructor
    · unfold sessionRequest
      rw [hdel]
    · have hnok : responseOk r.status = false := by
        simp only [responseOk, Bool.or_eq_false_iff, decide_eq_false_iff_not]
        omega
      simp only [HushApiClient.make_request, sessionRequest, hdel, hnok,
        Bool.false_eq_true, if_false]

/-- Witness for `retry_exhaustion_attempts`: every attempt answers
`500`.  On `GET /health` 4 attempts are observed and the surfaced error
has no status; on `POST /api/users` (`create_user`) one attempt is
observed and the surfaced error carries status 500 and the body. -/
theorem retry_exhaustion_attempts_witness :
    resp500.status ∈ retryStatusForcelist
    ∧ ("GET" ∈ retryAllowedMethods ∧ "POST" ∉ retryAllowedMethods)
    ∧ (sessionRequest "GET" ((fun _ _ => .ok resp500)
        (buildRequest demoClient "GET" "/health" none none none))).2 = 4
    ∧ demoClient.make_request "GET" "/health" none none none (fun _ _ => .ok resp500)
        = .error { message := "网络错误: too many 500 error responses"
                   status_code := none
                   response_data := none }
    ∧ (sessionRequest "POST" ((fun _ _ => .ok resp500)
        (buildRequest demoClient "POST" "/api/users"
          (some (JsonValue.obj [("name", .str "x")])) none none))).2 = 1
    ∧ demoClient.make_request "POST" "/api/users"
        (some (JsonValue.obj [("name", .str "x")])) none none (fun _ _ => .ok resp500)
        = .error { message := "HTTP 500: Internal Server Error"
                   status_code := some 500
                   response_data := some (.text "boom") } := by
  have hget := retry_exhaustion_attempts demoClient "GET" "/health" none none none
    (fun _ _ => .ok resp500) resp500 (fun _ => rfl) (by decide)
  have hpost := retry_exhaustion_attempts demoClient "POST" "/api/users"
    (some (JsonValue.obj [("name", .str "x")])) none none
    (fun _ _ => .ok resp500) resp500 (fun _ => rfl) (by decide)
  exact ⟨by decide, ⟨by decide, by decide⟩, (hget.1 (by decide)).1, (hget.1 (by decide)).2,
    (hpost.2 (by decide)).1, (hpost.2 (by decide)).2⟩

/-! ## Claim C5 -/

/-- C5, counterexample: a transport that always answers `502 Bad
Gateway` delivers real HTTP responses, yet after retry exhaustion the
surfaced `HushApiError` carries `status_code = none` and no body — so a
received non-2xx response is not always surfaced as an API error
carrying its status code and decoded body. -/
theorem exhausted_502_loses_status :
    resp502.status = 502
    ∧ demoClient.make_request "GET" "/health" none none none (fun _ _ => .ok resp502)
        = .error { message := "网络错误: too many 502 error responses"
                   status_code := none
                   response_data := none } :=
  ⟨rfl, rfl⟩

/-- C5 (amended): every run of `_make_request` ends in exactly one of
three outcomes, so no error is silently swallowed and the two error
kinds are distinguishable by the presence of `status_code`: a success
envelope (status outside 400–599); an API error carrying a 400–599
status together with the decoded body — for a retry-eligible method
that status is never in the transient forcelist, while for `POST` and
`PATCH` even transient statuses surface this way after one attempt; or
the translated `RequestException` — network failure, or transient
statuses exhausting their retries on a retry-eligible method — with
neither status nor body. -/
theorem error_kind_trichotomy (c : HushApiClient) (method endpoint : String)
    (data : Option JsonValue) (headers params : Option (List (String × String)))
    (t : HttpRequest → Nat → AttemptResult) :
    (∃ a : ApiResponse, c.make_request method endpoint data headers params t = .ok a
        ∧ responseOk a.status_code = true)
    ∨ (∃ e : HushApiError, c.make_request method endpoint data headers params t = .error e
        ∧ ∃ s, e.status_code = some s ∧ 400 ≤ s ∧ s < 600
            ∧ (method ∈ retryAllowedMethods → s ∉ retryStatusForcelist)
            ∧ ∃ b, e.response_data = some b)
    ∨ (∃ e : HushApiError, c.make_request method endpoint data headers params t = .error e
        ∧ e.status_code = none ∧ e.response_data = none) := by
  rcases hs : (sessionRequest method
      (t (buildRequest c method endpoint data headers params))).1
    with r | msg
  · have hnf : method ∈ retryAllowedMethods → r.status ∉ retryStatusForcelist :=
      fun hm => sessionLoop_resp_not_forcelist retryTotal method
        (t (buildRequest c method endpoint data headers params)) 0 r hs hm
    by_cases hok : responseOk r.status = true
    · refine Or.inl ⟨{ status_code := r.status, data := decodeBody r, headers := r.headers },
        ?_, hok⟩
      simp only [HushApiClient.make_request, hs, hok, if_true]
    · refine Or.inr (Or.inl ⟨HushApiError.mk
          ("HTTP " ++ toString r.status ++ ": " ++ r.reason)
          (some r.status) (some (decodeBody r)), ?_, r.status, rfl, ?_, ?_, hnf,
          decodeBody r, rfl⟩)
      · simp only [HushApiClient.make_request, hs, hok, if_false, Bool.false_eq_true]
      · simp only [responseOk, Bool.or_eq_true, decide_eq_true_eq, not_or] at hok
        omega
      · simp only [responseOk, Bool.or_eq_true, decide_eq_true_eq, not_or] at hok
        omega
  · refine Or.inr (Or.inr ⟨HushApiError.mk ("网络错误: " ++ msg) none none, ?_, rfl, rfl⟩)
    simp only [HushApiClient.make_request, hs]

/-! ## Header lemmas and Claim C3 -/

/-- Replacing the value of some other key does not change what a lookup
of `k` sees. -/
theorem lookupHeader_map_update (kv : String × String) (k : String) (hk : k ≠ kv.1)
    (hs : List (String × String)) :
    lookupHeader (hs.map (fun p => if p.1 = kv.1 then kv else p)) k = lookupHeader hs k := by
  induction hs with
  | nil => rfl
  | cons p ps ih =>
    by_cases hp : p.1 = kv.1
    · have h1 : ¬ kv.1 = k := fun h => hk h.symm
      have h2 : ¬ p.1 = k := by rw [hp]; exact h1
      simp [lookupHeader, hp, h1, h2, ih]
    · simp [lookupHeader, hp, ih]

/-- Appending a pair with some other key does not change what a lookup
of `k` sees. -/
theorem lookupHeader_append_other (hs : List (String × String)) (kv : String × String)
    (k : String) (hk : k ≠ kv.1) :
    lookupHeader (hs ++ [kv]) k = lookupHeader hs k := by
  have h1 : ¬ kv.1 = k := fun h => hk h.symm
  induction hs with
  | nil => simp [lookupHeader, h1]
  | cons p ps ih => simp [lookupHeader, ih]

/-- `setKey` with some other key does not change what a lookup of `k`
sees. -/
theorem lookupHeader_setKey_other (hs : List (String × String)) (kv : String × String)
    (k : String) (hk : k ≠ kv.1) :
    lookupHeader (setKey hs kv) k = lookupHeader hs k := by
  unfold setKey
  split
  · exact lookupHeader_map_update kv k hk hs
  · exact lookupHeader_append_other hs kv k hk

/-- An update whose pairs never bind `k` does not change what a lookup
of `k` sees. -/
theorem lookupHeader_updateHeaders (extra : List (String × String)) (k : String)
    (hk : ∀ p ∈ extra, p.1 ≠ k) (base : List (String × String)) :
    lookupHeader (updateHeaders base extra) k = lookupHeader base k := by
  induction extra generalizing base with
  | nil => rfl
  | cons q qs ih =>
    have hq : k ≠ q.1 := fun h => hk q (List.mem_cons_self q qs) h.symm
    have step : updateHeaders base (q :: qs) = updateHeaders (setKey base q) qs := rfl
    rw [step, ih (fun p hp => hk p (List.mem_cons_of_mem q hp)) (setKey base q)]
    exact lookupHeader_setKey_other base q k hq

/-- The optional-extra-headers wrapper of `_get_headers` never changes
what a lookup of `k` sees when the extras do not bind `k`. -/
theorem lookupHeader_get_headers (c : HushApiClient)
    (extra : Option (List (String × String))) (k : String)
    (hk : ∀ l, extra = some l → ∀ p ∈ l, p.1 ≠ k) :
    lookupHeader (c.get_headers extra) k = lookupHeader (c.get_headers none) k := by
  unfold HushApiClient.get_headers
  cases extra with
  | none => rfl
  | some l =>
    by_cases hl : l.isEmpty
    · simp [hl]
    · simp only [hl, Bool.false_eq_true, if_false]
      exact lookupHeader_updateHeaders l k (hk l rfl) _

/-- C3, counterexample: `set_auth_token("")` stores the empty token, yet
the next request's headers omit `Authorization` entirely (Python's
`if self.token:` treats the empty string as falsy), so not every call
to `set_auth_token` makes subsequent requests carry the header. -/
theorem empty_token_header_omitted :
    (demoClient.set_auth_token "").token = some ""
    ∧ lookupHeader ((demoClient.set_auth_token "").get_headers none) "Authorization" = none :=
  ⟨rfl, rfl⟩

/-- C3 (amended): after `set_auth_token(token)` with a non-empty token,
every subsequent request whose caller-supplied extra headers do not
themselves bind `Authorization` carries `Authorization: Bearer <token>`;
when the token was never set (`None`) the header is omitted (and by
`empty_token_like_unset` an empty token behaves like an unset one). -/
theorem auth_header_after_set (c : HushApiClient) (tok : String)
    (extra : Option (List (String × String)))
    (method endpoint : String) (data : Option JsonValue)
    (params : Option (List (String × String)))
    (htok : tok ≠ "")
    (hextra : ∀ l, extra = some l → ∀ p ∈ l, p.1 ≠ "Authorization") :
    lookupHeader ((buildRequest (c.set_auth_token tok) method endpoint data extra params).headers)
        "Authorization" = some ("Bearer " ++ tok)
    ∧ (∀ c2 : HushApiClient, c2.token = none →
        lookupHeader ((buildRequest c2 method endpoint data extra params).headers)
          "Authorization" = none) := by
  have hne : tok.isEmpty = false := by
    cases h : tok.isEmpty
    · rfl
    · exact absurd ((String.isEmpty_iff tok).mp h) htok
  constructor
  · show lookupHeader ((c.set_auth_token tok).get_headers extra) "Authorization" = _
    rw [lookupHeader_get_headers _ extra "Authorization" hextra]
    unfold HushApiClient.get_headers HushApiClient.set_auth_token
    simp only [hne, Bool.false_eq_true, if_false]
    rfl
  · intro c2 hc2
    show lookupHeader (c2.get_headers extra) "Authorization" = none
    rw [lookupHeader_get_headers c2 extra "Authorization" hextra]
    unfold HushApiClient.get_headers
    rw [hc2]
    rfl

/-- Witness for `auth_header_after_set`: the token `"abc"` with the CORS
extra headers, and a fresh client for the unset case. -/
theorem auth_header_after_set_witness :
    ("abc" : String) ≠ ""
    ∧ lookupHeader ((buildRequest (demoClient.set_auth_token "abc") "OPTIONS" "/api/users"
        none (some (corsHeaders "GET")) none).headers) "Authorization" = some "Bearer abc"
    ∧ lookupHeader ((buildRequest demoClient "OPTIONS" "/api/users"
        none (some (corsHeaders "GET")) none).headers) "Authorization" = none := by
  have h := auth_header_after_set demoClient "abc" (some (corsHeaders "GET"))
    "OPTIONS" "/api/users" none none (by decide)
    (by intro l hl; cases hl; decide)
  exact ⟨by decide, h.1, h.2 demoClient rfl⟩

/-! ## Claim C6 -/

/-- C6, counterexample: two 2xx responses with the same decoded body but
different headers make `cors_preflight_check` return different results,
so it does not return (only) the response body like the other typed
methods: it returns the whole `ApiResponse` envelope. -/
theorem cors_result_not_body_only :
    decodeBody corsRespA = decodeBody corsRespB
    ∧ corsRespA.status = 200 ∧ corsRespB.status = 200
    ∧ demoClient.cors_preflight_check "/api/users" "GET" (fun _ _ => .ok corsRespA)
        ≠ demoClient.cors_preflight_check "/api/users" "GET" (fun _ _ => .ok corsRespB) := by
  refine ⟨rfl, rfl, rfl, fun h => ?_⟩
  have hh := congrArg (fun x => x.toOption.map ApiResponse.headers) h
  simp only [Except.toOption, Option.map] at hh
  exact absurd (congrArg (fun l => l.length) (Option.some.inj hh)) (by decide)

/-- C6 (amended): `cors_preflight_check(endpoint, method)` issues one
`OPTIONS` request to the given endpoint, carrying the CORS request
headers, and on a 2xx response returns the full `ApiResponse` envelope
(status code, decoded body and headers) rather than only the body. -/
theorem cors_preflight_envelope (c : HushApiClient) (endpoint method : String)
    (t : HttpRequest → Nat → AttemptResult) (r : HttpResponse)
    (ht : t (buildRequest c "OPTIONS" endpoint none (some (corsHeaders method)) none) 0
        = .ok r)
    (h2xx : 200 ≤ r.status ∧ r.status < 300) :
    c.cors_preflight_check endpoint method t
      = .ok { status_code := r.status, data := decodeBody r, headers := r.headers }
    ∧ (buildRequest c "OPTIONS" endpoint none (some (corsHeaders method)) none).method
        = "OPTIONS"
    ∧ (buildRequest c "OPTIONS" endpoint none (some (corsHeaders method)) none).url
        = c.base_url ++ endpoint
    ∧ (sessionRequest "OPTIONS"
        (t (buildRequest c "OPTIONS" endpoint none (some (corsHeaders method)) none))).2
        = 1 := by
  have hfl : r.status ∉ retryStatusForcelist := by
    simp only [retryStatusForcelist, List.mem_cons, List.not_mem_nil, or_false]
    omega
  refine ⟨?_, rfl, rfl, ?_⟩
  · unfold HushApiClient.cors_preflight_check
    rw [make_request_first_ok c "OPTIONS" endpoint none (some (corsHeaders method)) none
      t r ht hfl]
    have hok : responseOk r.status = true := by
      simp only [responseOk, Bool.or_eq_true, decide_eq_true_eq]
      omega
    simp [hok]
  · unfold sessionRequest
    rw [sessionLoop_first_ok _ _ _ _ _ ht hfl]

/-- Witness for `cors_preflight_envelope`: a `200` preflight response
with a CORS grant header. -/
theorem cors_preflight_envelope_witness :
    (200 ≤ corsRespA.status ∧ corsRespA.status < 300)
    ∧ demoClient.cors_preflight_check "/api/users" "GET" (fun _ _ => .ok corsRespA)
        = .ok { status_code := 200
                data := .json (.obj [])
                headers := [("Access-Control-Allow-Origin", "*")] }
    ∧ (sessionRequest "OPTIONS" ((fun _ _ => .ok corsRespA)
        (buildRequest demoClient "OPTIONS" "/api/users" none
          (some (corsHeaders "GET")) none))).2 = 1 := by
  have h := cors_preflight_envelope demoClient "/api/users" "GET"
    (fun _ _ => .ok corsRespA) corsRespA rfl (by decide)
  exact ⟨by decide, h.1, h.2.2.2⟩

/-! ## Claim C7 -/

/-- C7: the configuration is mutable only through the token setter.
`set_auth_token` changes the token field and nothing else — `base_url`
and `timeout` are exactly those fixed at construction.  The request
methods are embedded as pure functions of the client because the
source assigns no attribute of `self` outside `__init__` and
`set_auth_token`, so no request method changes any field. -/
theorem set_auth_token_frame (c : HushApiClient) (tok : String) :
    (c.set_auth_token tok).base_url = c.base_url
    ∧ (c.set_auth_token tok).timeout = c.timeout
    ∧ (c.set_auth_token tok).token = some tok :=
  ⟨rfl, rfl, rfl⟩

/-! ## Claim C8 -/

/-- C8: `set_auth_token("")` stores the empty token, yet header
construction behaves exactly as with no token at all — `if self.token:`
is false for the empty string — so no `Authorization` header is
attached. -/
theorem empty_token_like_unset (c : HushApiClient)
    (additional : Option (List (String × String))) :
    (c.set_auth_token "").token = some ""
    ∧ (c.set_auth_token "").get_headers additional
        = (HushApiClient.mk c.base_url c.timeout none).get_headers additional
    ∧ lookupHeader ((c.set_auth_token "").get_headers none) "Authorization" = none :=
  ⟨rfl, rfl, rfl⟩

/-! ## Claim C10 -/

/-- C10: a JSON body is attached exactly when the payload is truthy
(non-empty) and the method is `POST`, `PUT` or `PATCH`.  In particular
the request `create_user(\x7b\x7d)` issues (a `POST /api/users` with
`data = some (obj [])`) carries no body, and `GET` requests never carry
a body even when data is supplied. -/
theorem request_body_policy (c : HushApiClient) (method endpoint : String)
    (data : Option JsonValue) (headers params : Option (List (String × String))) :
    (buildRequest c method endpoint data headers params).body
      = (if dataTruthy data ∧ method ∈ ["POST", "PUT", "PATCH"] then data else none)
    ∧ (buildRequest c "POST" "/api/users" (some (JsonValue.obj [])) none none).body = none
    ∧ (buildRequest c "GET" endpoint data headers params).body = none := by
  refine ⟨rfl, ?_, ?_⟩
  · show (if dataTruthy (some (JsonValue.obj []))
        ∧ "POST" ∈ ["POST", "PUT", "PATCH"] then some (JsonValue.obj []) else none) = none
    exact if_neg (fun h => absurd h.1 (by decide))
  · show (if dataTruthy data ∧ "GET" ∈ ["POST", "PUT", "PATCH"] then data else none) = none
    exact if_neg (fun h => absurd h.2 (by decide))

/-! ## Claim C9 -/

/-- Dropping leading slashes ignores a block of slashes in front. -/
theorem dropWhile_replicate_slash (n : Nat) (l : List Char) :
    List.dropWhile (fun c => c = '/') (List.replicate n '/' ++ l)
      = List.dropWhile (fun c => c = '/') l := by
  induction n with
  | zero => rfl
  | succ n ih => simp [List.replicate_succ, List.dropWhile_cons, ih]

/-- `rstrip('/')` ignores any block of trailing slashes. -/
theorem rstripSlashes_append_slashes (s : String) (n : Nat) :
    rstripSlashes (s ++ String.mk (List.replicate n '/')) = rstripSlashes s := by
  unfold rstripSlashes
  rw [String.data_append]
  show String.mk (((s.data ++ List.replicate n '/').reverse.dropWhile
    (fun c => c = '/')).reverse) = _
  rw [List.reverse_append, List.reverse_replicate, dropWhile_replicate_slash]

/-- C9: `base_url` values differing only in trailing `'/'` characters
yield clients issuing identical URLs for every endpoint: both build
`rstrip(base) + endpoint`. -/
theorem trailing_slash_url_invariance (b : String) (n m t1 t2 : Nat)
    (method endpoint : String) (data : Option JsonValue)
    (headers params : Option (List (String × String))) :
    (buildRequest (HushApiClient.make (b ++ String.mk (List.replicate n '/')) t1)
        method endpoint data headers params).url
      = (buildRequest (HushApiClient.make (b ++ String.mk (List.replicate m '/')) t2)
        method endpoint data headers params).url
    ∧ (buildRequest (HushApiClient.make (b ++ String.mk (List.replicate n '/')) t1)
        method endpoint data headers params).url = rstripSlashes b ++ endpoint := by
  have h1 := rstripSlashes_append_slashes b n
  have h2 := rstripSlashes_append_slashes b m
  constructor
  · show rstripSlashes (b ++ String.mk (List.replicate n '/')) ++ endpoint
      = rstripSlashes (b ++ String.mk (List.replicate m '/')) ++ endpoint
    rw [h1, h2]
  · show rstripSlashes (b ++ String.mk (List.replicate n '/')) ++ endpoint = _
    rw [h1]

end HushDemo
